import Mathlib

/-!
Shallow embedding of the chatvibes music bridge
(`src/components/music/musicService.py` and
`src/components/music/test_error_handling.py`) together with theorems
about its error classifier and request invoker.

Python strings are modelled as Lean `String`; `needle in hay` is
`pyContains hay needle`; `str.lower` is `pyLower` (the patterns involved
are ASCII); dictionaries with a fixed key set are structures with
`Option` fields (a `none` field means the key is absent).
-/

namespace MusicBridge

/-- Character–list version of "the first argument is a leading segment of
the second". -/
def startsWithChars : List Char → List Char → Bool
  | [], _ => true
  | _ :: _, [] => false
  | c :: cs, d :: ds => c == d && startsWithChars cs ds

/-- Character–list version of Python substring membership: does `needle`
occur contiguously inside the second argument? -/
def containsChars (needle : List Char) : List Char → Bool
  | [] => needle.isEmpty
  | d :: ds => startsWithChars needle (d :: ds) || containsChars needle ds

/-- Python `needle in hay` on strings. -/
def pyContains (hay needle : String) : Bool :=
  containsChars needle.data hay.data

/-- Python `str.lower` restricted to the ASCII range actually used here. -/
def pyLower (s : String) : String :=
  ⟨s.data.map Char.toLower⟩

/-- The error categories named by the specification's data model (§3). -/
inductive ErrCat where
  | service_unavailable
  | artist_names_rejected
  | rate_limited
  | timeout
  | auth_error
  | content_policy
  | unknown_error
  | generation_failed
  | service_error
  deriving DecidableEq

/-- The record returned by the classifier: a category tag, a fixed
user-facing message, and a log message interpolating the raw error. -/
structure Classification where
  type : ErrCat
  userMessage : String
  logMessage : String
  deriving DecidableEq

/-- `categorize_error` from `test_error_handling.py`, transcribed rule by
rule.  Note that the `(E004)` token is tested against `raw_error` itself
(case-sensitively) while every other pattern is tested against the
lowered string, exactly as in the source. -/
def categorize_error (raw_error : String) (error_type : String) : Classification :=
  let error_lower := pyLower raw_error
  if pyContains error_lower "service is temporarily unavailable" || pyContains raw_error "(E004)" then
    { type := .service_unavailable
      userMessage := "The music generation service is temporarily unavailable. Please try again in a few minutes."
      logMessage := "Service unavailable error: " ++ raw_error }
  else if pyContains error_lower "prompt was rejected" && pyContains error_lower "artist names" then
    { type := .artist_names_rejected
      userMessage := "Prompt was rejected. Please do not include specific artist names in your prompt."
      logMessage := "Prompt rejected for artist names: " ++ raw_error }
  else if pyContains error_lower "rate limit" || pyContains error_lower "quota exceeded" then
    { type := .rate_limited
      userMessage := "Rate limit exceeded. Please wait a moment before trying again."
      logMessage := "Rate limit error: " ++ raw_error }
  else if pyContains error_lower "timeout" || pyContains error_lower "timed out" then
    { type := .timeout
      userMessage := "Music generation timed out. Please try again with a simpler prompt."
      logMessage := "Timeout error: " ++ raw_error }
  else if pyContains error_lower "invalid" && pyContains error_lower "token" then
    { type := .auth_error
      userMessage := "Authentication error. Please contact the bot administrator."
      logMessage := "Auth error: " ++ raw_error }
  else if pyContains error_lower "content policy" || pyContains error_lower "safety" then
    { type := .content_policy
      userMessage := "Your prompt was rejected for safety reasons. Please try a different prompt."
      logMessage := "Content policy violation: " ++ raw_error }
  else
    { type := .unknown_error
      userMessage := "An unexpected error occurred. Please try again later."
      logMessage := ("Unknown error (" ++ error_type ++ "): ") ++ raw_error }

/-- One matching rule of the classifier: a test on the raw error, the
category it assigns, its fixed user message, and the log-message head to
which the raw error is appended. -/
structure Rule where
  test : String → Bool
  cat : ErrCat
  userMessage : String
  logHead : String

/-- The classifier's six rules, in the source's priority order. -/
def classifierRules : List Rule :=
  [ { test := fun raw => pyContains (pyLower raw) "service is temporarily unavailable" || pyContains raw "(E004)"
      cat := .service_unavailable
      userMessage := "The music generation service is temporarily unavailable. Please try again in a few minutes."
      logHead := "Service unavailable error: " },
    { test := fun raw => pyContains (pyLower raw) "prompt was rejected" && pyContains (pyLower raw) "artist names"
      cat := .artist_names_rejected
      userMessage := "Prompt was rejected. Please do not include specific artist names in your prompt."
      logHead := "Prompt rejected for artist names: " },
    { test := fun raw => pyContains (pyLower raw) "rate limit" || pyContains (pyLower raw) "quota exceeded"
      cat := .rate_limited
      userMessage := "Rate limit exceeded. Please wait a moment before trying again."
      logHead := "Rate limit error: " },
    { test := fun raw => pyContains (pyLower raw) "timeout" || pyContains (pyLower raw) "timed out"
      cat := .timeout
      userMessage := "Music generation timed out. Please try again with a simpler prompt."
      logHead := "Timeout error: " },
    { test := fun raw => pyContains (pyLower raw) "invalid" && pyContains (pyLower raw) "token"
      cat := .auth_error
      userMessage := "Authentication error. Please contact the bot administrator."
      logHead := "Auth error: " },
    { test := fun raw => pyContains (pyLower raw) "content policy" || pyContains (pyLower raw) "safety"
      cat := .content_policy
      userMessage := "Your prompt was rejected for safety reasons. Please try a different prompt."
      logHead := "Content policy violation: " } ]

/-- First-match-wins evaluation of a rule list, falling back to the
`unknown_error` classification when no rule matches. -/
def applyRules (error_type : String) : List Rule → String → Classification
  | [], raw =>
    { type := .unknown_error
      userMessage := "An unexpected error occurred. Please try again later."
      logMessage := ("Unknown error (" ++ error_type ++ "): ") ++ raw }
  | r :: rs, raw =>
    if r.test raw then
      { type := r.cat, userMessage := r.userMessage, logMessage := r.logHead ++ raw }
    else
      applyRules error_type rs raw

/-- Modelled from the spec's words (§4.1, §8): the classifier with every
pattern, the token "(E004)" included, matched case-insensitively.  It
exists only to be compared with `categorize_error`, whose "(E004)" test
is case-sensitive. -/
def categorizeSpecCI (raw_error : String) (error_type : String) : Classification :=
  let error_lower := pyLower raw_error
  if pyContains error_lower "service is temporarily unavailable" || pyContains error_lower "(e004)" then
    { type := .service_unavailable
      userMessage := "The music generation service is temporarily unavailable. Please try again in a few minutes."
      logMessage := "Service unavailable error: " ++ raw_error }
  else if pyContains error_lower "prompt was rejected" && pyContains error_lower "artist names" then
    { type := .artist_names_rejected
      userMessage := "Prompt was rejected. Please do not include specific artist names in your prompt."
      logMessage := "Prompt rejected for artist names: " ++ raw_error }
  else if pyContains error_lower "rate limit" || pyContains error_lower "quota exceeded" then
    { type := .rate_limited
      userMessage := "Rate limit exceeded. Please wait a moment before trying again."
      logMessage := "Rate limit error: " ++ raw_error }
  else if pyContains error_lower "timeout" || pyContains error_lower "timed out" then
    { type := .timeout
      userMessage := "Music generation timed out. Please try again with a simpler prompt."
      logMessage := "Timeout error: " ++ raw_error }
  else if pyContains error_lower "invalid" && pyContains error_lower "token" then
    { type := .auth_error
      userMessage := "Authentication error. Please contact the bot administrator."
      logMessage := "Auth error: " ++ raw_error }
  else if pyContains error_lower "content policy" || pyContains error_lower "safety" then
    { type := .content_policy
      userMessage := "Your prompt was rejected for safety reasons. Please try a different prompt."
      logMessage := "Content policy violation: " ++ raw_error }
  else
    { type := .unknown_error
      userMessage := "An unexpected error occurred. Please try again later."
      logMessage := ("Unknown error (" ++ error_type ++ "): ") ++ raw_error }

/-- Does any of the classifier's six rules match the raw error?  Used to
state the fallback clause of the totality claim. -/
def matchesAnyRule (raw : String) : Bool :=
  (pyContains (pyLower raw) "service is temporarily unavailable" || pyContains raw "(E004)")
  || (pyContains (pyLower raw) "prompt was rejected" && pyContains (pyLower raw) "artist names")
  || (pyContains (pyLower raw) "rate limit" || pyContains (pyLower raw) "quota exceeded")
  || (pyContains (pyLower raw) "timeout" || pyContains (pyLower raw) "timed out")
  || (pyContains (pyLower raw) "invalid" && pyContains (pyLower raw) "token")
  || (pyContains (pyLower raw) "content policy" || pyContains (pyLower raw) "safety")

/-- The fixed user-facing message of each category produced by the
classifier (the two invoker-level categories never come out of
`categorize_error` and are given the empty string). -/
def userMessageFor : ErrCat → String
  | .service_unavailable => "The music generation service is temporarily unavailable. Please try again in a few minutes."
  | .artist_names_rejected => "Prompt was rejected. Please do not include specific artist names in your prompt."
  | .rate_limited => "Rate limit exceeded. Please wait a moment before trying again."
  | .timeout => "Music generation timed out. Please try again with a simpler prompt."
  | .auth_error => "Authentication error. Please contact the bot administrator."
  | .content_policy => "Your prompt was rejected for safety reasons. Please try a different prompt."
  | .unknown_error => "An unexpected error occurred. Please try again later."
  | .generation_failed => ""
  | .service_error => ""

/-- The value returned by the provider call in `musicService.py`: a plain
URL string, a `FileOutput`-style object carrying a `url` attribute, or
anything else (carrying the printed name of its Python type). -/
inductive ProviderOutput where
  | str (s : String)
  | fileOutput (url : String)
  | other (typeName : String)
  deriving DecidableEq

/-- The dictionary `generate_music` returns: the success shape
`{success: True, audio_url, prompt}` or the failure shape
`{success: False, error, message}`. -/
inductive GenerationResult where
  | success (audio_url : String) (prompt : String)
  | failure (error : String) (message : String)
  deriving DecidableEq

/-- Python truthiness of the optional `negative_prompt` argument:
`None` and the empty string are falsy. -/
def truthyStr : Option String → Bool
  | none => false
  | some s => !(s == "")

/-- Python truthiness of the optional `seed` argument: `None` and `0`
are falsy. -/
def truthyInt : Option Int → Bool
  | none => false
  | some n => !(n == 0)

/-- The provider `input_data` dictionary; a `none` field means the key is
absent from the dictionary. -/
structure InputData where
  prompt : String
  negative_prompt : Option String
  seed : Option Int
  deriving DecidableEq

/-- Building `input_data` in `generate_music`: the prompt always, the
optional keys only when their argument is truthy. -/
def build_input (prompt : String) (negative_prompt : Option String) (seed : Option Int) : InputData :=
  { prompt := prompt
    negative_prompt := if truthyStr negative_prompt then negative_prompt else none
    seed := if truthyInt seed then seed else none }

/-- `str(KeyError("REPLICATE_API_TOKEN"))`: the message of the exception
raised by `os.environ["REPLICATE_API_TOKEN"]` when the variable is
absent. -/
def keyErrorMsg : String := "\x27REPLICATE_API_TOKEN\x27"

/-- The `except` block of `generate_music`: every exception caught in the
function body flows here with its message. -/
def handle_error (error_msg : String) : GenerationResult :=
  if pyContains error_msg "Prompt was rejected" && pyContains error_msg "artist names" then
    .failure "artist_names_rejected" "Prompt was rejected. Do not include artist names in the prompt."
  else
    .failure "generation_failed" ("Music generation failed: " ++ error_msg)

/-- `generate_music` from `musicService.py`.  The environment is passed
as `env_token` (the value of `REPLICATE_API_TOKEN`, `none` when absent)
and the provider call as `run` (`Except.error e` models the call raising
an exception whose `str` is `e`).  The three raise sites inside the
`try` — the missing environment variable, the provider call, and the
unexpected output type — all land in `handle_error`. -/
def generate_music (env_token : Option String)
    (run : InputData → Except String ProviderOutput)
    (prompt : String) (negative_prompt : Option String) (seed : Option Int) :
    GenerationResult :=
  match env_token with
  | none => handle_error keyErrorMsg
  | some _ =>
    match run (build_input prompt negative_prompt seed) with
    | .error e => handle_error e
    | .ok (.fileOutput url) => .success url prompt
    | .ok (.str s) => .success s prompt
    | .ok (.other typeName) => handle_error ("Unexpected output type: " ++ typeName)

/-- C3 (counterexample): the classifier is not fully case-insensitive.
On "(e004) rate limit" the code returns `rate_limited`, while the fully
case-insensitive first-match reading of the spec returns
`service_unavailable` from the first rule. -/
theorem categorize_error_not_case_insensitive :
    (categorize_error "(e004) rate limit" "T").type = ErrCat.rate_limited
    ∧ (categorizeSpecCI "(e004) rate limit" "T").type = ErrCat.service_unavailable
    ∧ ErrCat.rate_limited ≠ ErrCat.service_unavailable := by
  refine ⟨by decide, by decide, by decide⟩

/-- C3 (amended): the classifier evaluates its six rules in the fixed
priority order service-unavailable, artist-name rejection, rate limiting,
timeout, auth/token invalidity, content/safety policy, with first match
winning and `unknown_error` as fallback — so a message satisfying several
rules is classified by the earliest one.  Matching is case-insensitive
except the "(E004)" token, which is matched against the raw string
case-sensitively. -/
theorem categorize_error_first_match (raw error_type : String) :
    categorize_error raw error_type = applyRules error_type classifierRules raw := rfl

/-- Witness for C3: the priority-order equation at a concrete input. -/
theorem categorize_error_first_match_witness :
    categorize_error "Request timed out after 60 seconds" "T"
      = applyRules "T" classifierRules "Request timed out after 60 seconds" :=
  categorize_error_first_match "Request timed out after 60 seconds" "T"

/-- C4 (counterexample): the lower-case token "(e004)" is NOT classified
as `service_unavailable`; it falls through to `unknown_error`, because
the code tests "(E004)" against the raw string case-sensitively. -/
theorem e004_lower_case_not_service_unavailable :
    (categorize_error "(e004)" "T").type = ErrCat.unknown_error
    ∧ ErrCat.unknown_error ≠ ErrCat.service_unavailable := by
  refine ⟨by decide, by decide⟩

/-- C4 (amended): every raw error containing "service is temporarily
unavailable" case-insensitively, or containing the token "(E004)" in
exactly that case, is classified `service_unavailable`. -/
theorem service_unavailable_rule (raw error_type : String)
    (h : (pyContains (pyLower raw) "service is temporarily unavailable"
          || pyContains raw "(E004)") = true) :
    (categorize_error raw error_type).type = ErrCat.service_unavailable := by
  simp only [categorize_error, h]
  rfl

/-- Witness for C4 at the test harness's first sample error. -/
theorem service_unavailable_rule_witness :
    (categorize_error "Service is temporarily unavailable. Please try again later. (E004)" "T").type
      = ErrCat.service_unavailable :=
  service_unavailable_rule "Service is temporarily unavailable. Please try again later. (E004)" "T"
    (by decide)

/-- C5 (counterexample): a raw error containing both "prompt was
rejected" and "artist names" case-insensitively is NOT always classified
`artist_names_rejected` — when it also matches the earlier
service-unavailable rule, that rule wins. -/
theorem artist_names_shadowed_by_service_unavailable :
    pyContains (pyLower "Service is temporarily unavailable: Prompt was rejected because it contains artist names") "prompt was rejected" = true
    ∧ pyContains (pyLower "Service is temporarily unavailable: Prompt was rejected because it contains artist names") "artist names" = true
    ∧ (categorize_error "Service is temporarily unavailable: Prompt was rejected because it contains artist names" "T").type
        = ErrCat.service_unavailable
    ∧ ErrCat.service_unavailable ≠ ErrCat.artist_names_rejected := by
  refine ⟨by decide, by decide, by decide, by decide⟩

/-- C5 (amended): a raw error containing both "prompt was rejected" and
"artist names" case-insensitively is classified `artist_names_rejected`
provided the earlier service-unavailable rule does not match (no
case-insensitive "service is temporarily unavailable" and no
case-sensitive "(E004)"). -/
theorem artist_names_rejected_rule (raw error_type : String)
    (h1 : pyContains (pyLower raw) "prompt was rejected" = true)
    (h2 : pyContains (pyLower raw) "artist names" = true)
    (h3 : pyContains (pyLower raw) "service is temporarily unavailable" = false)
    (h4 : pyContains raw "(E004)" = false) :
    (categorize_error raw error_type).type = ErrCat.artist_names_rejected := by
  simp [categorize_error, h1, h2, h3, h4]

/-- Witness for C5 at the test harness's second sample error. -/
theorem artist_names_rejected_rule_witness :
    (categorize_error "Prompt was rejected because it contains artist names" "T").type
      = ErrCat.artist_names_rejected :=
  artist_names_rejected_rule "Prompt was rejected because it contains artist names" "T"
    (by decide) (by decide) (by decide) (by decide)

/-- C6: "Content violates safety policy" is classified `content_policy`,
and indeed the matcher's literal trigger "safety" occurs in it (while
"content policy" does not); removing the trigger — "Content violates
policy" — falls through to `unknown_error`. -/
theorem content_policy_trigger :
    (categorize_error "Content violates safety policy" "TestError").type = ErrCat.content_policy
    ∧ pyContains (pyLower "Content violates safety policy") "safety" = true
    ∧ pyContains (pyLower "Content violates safety policy") "content policy" = false
    ∧ (categorize_error "Content violates policy" "TestError").type = ErrCat.unknown_error := by
  refine ⟨by decide, by decide, by decide, by decide⟩

/-- C7: the classifier is total — for every raw error message and every
error-type label it returns exactly one classification whose log message
interpolates the raw error and whose user message is the fixed message of
its category, and when no rule matches the category is the
`unknown_error` fallback. -/
theorem categorize_error_total (raw error_type : String) :
    (∃ p, (categorize_error raw error_type).logMessage = p ++ raw)
    ∧ (categorize_error raw error_type).userMessage
        = userMessageFor (categorize_error raw error_type).type
    ∧ (matchesAnyRule raw = false →
        (categorize_error raw error_type).type = ErrCat.unknown_error) := by
  by_cases h1 : (pyContains (pyLower raw) "service is temporarily unavailable" || pyContains raw "(E004)") = true
  · simp only [categorize_error, h1]
    refine ⟨⟨_, rfl⟩, rfl, fun hall => ?_⟩
    have hm : matchesAnyRule raw = true := by simp [matchesAnyRule, h1]
    rw [hall] at hm
    simp at hm
  · rw [Bool.not_eq_true] at h1
    by_cases h2 : (pyContains (pyLower raw) "prompt was rejected" && pyContains (pyLower raw) "artist names") = true
    · simp only [categorize_error, h1, h2]
      refine ⟨⟨_, rfl⟩, rfl, fun hall => ?_⟩
      have hm : matchesAnyRule raw = true := by simp [matchesAnyRule, h2]
      rw [hall] at hm
      simp at hm
    · rw [Bool.not_eq_true] at h2
      by_cases h3 : (pyContains (pyLower raw) "rate limit" || pyContains (pyLower raw) "quota exceeded") = true
      · simp only [categorize_error, h1, h2, h3]
        refine ⟨⟨_, rfl⟩, rfl, fun hall => ?_⟩
        have hm : matchesAnyRule raw = true := by simp [matchesAnyRule, h3]
        rw [hall] at hm
        simp at hm
      · rw [Bool.not_eq_true] at h3
        by_cases h4 : (pyContains (pyLower raw) "timeout" || pyContains (pyLower raw) "timed out") = true
        · simp only [categorize_error, h1, h2, h3, h4]
          refine ⟨⟨_, rfl⟩, rfl, fun hall => ?_⟩
          have hm : matchesAnyRule raw = true := by simp [matchesAnyRule, h4]
          rw [hall] at hm
          simp at hm
        · rw [Bool.not_eq_true] at h4
          by_cases h5 : (pyContains (pyLower raw) "invalid" && pyContains (pyLower raw) "token") = true
          · simp only [categorize_error, h1, h2, h3, h4, h5]
            refine ⟨⟨_, rfl⟩, rfl, fun hall => ?_⟩
            have hm : matchesAnyRule raw = true := by simp [matchesAnyRule, h5]
            rw [hall] at hm
            simp at hm
          · rw [Bool.not_eq_true] at h5
            by_cases h6 : (pyContains (pyLower raw) "content policy" || pyContains (pyLower raw) "safety") = true
            · simp only [categorize_error, h1, h2, h3, h4, h5, h6]
              refine ⟨⟨_, rfl⟩, rfl, fun hall => ?_⟩
              have hm : matchesAnyRule raw = true := by simp [matchesAnyRule, h6]
              rw [hall] at hm
              simp at hm
            · rw [Bool.not_eq_true] at h6
              simp only [categorize_error, h1, h2, h3, h4, h5, h6]
              exact ⟨⟨_, rfl⟩, rfl, fun _ => rfl⟩

/-- Witness for C7 at the test harness's last sample error. -/
theorem categorize_error_total_witness :
    (∃ p, (categorize_error "Some unknown error occurred" "TestError").logMessage
        = p ++ "Some unknown error occurred")
    ∧ (categorize_error "Some unknown error occurred" "TestError").userMessage
        = userMessageFor (categorize_error "Some unknown error occurred" "TestError").type
    ∧ (matchesAnyRule "Some unknown error occurred" = false →
        (categorize_error "Some unknown error occurred" "TestError").type = ErrCat.unknown_error) :=
  categorize_error_total "Some unknown error occurred" "TestError"

/-- C1 (counterexample): `generate_music` does not hand provider errors
to the classifier.  A raised "Rate limit exceeded for this API key" comes
back with the error tag "generation_failed", while the classifier maps
that very message to `rate_limited`. -/
theorem generate_music_skips_classifier :
    generate_music (some "tok") (fun _ => Except.error "Rate limit exceeded for this API key")
        "a prompt" none none
      = GenerationResult.failure "generation_failed"
          "Music generation failed: Rate limit exceeded for this API key"
    ∧ (categorize_error "Rate limit exceeded for this API key" "Error").type = ErrCat.rate_limited
    ∧ ("generation_failed" : String) ≠ "rate_limited" := by
  refine ⟨by decide, by decide, by decide⟩

/-- C1 (amended): `generate_music` never propagates an exception from the
provider call; it catches it and returns a structured failure — tagged
"artist_names_rejected" when the raw message contains both "Prompt was
rejected" and "artist names" case-sensitively, and "generation_failed"
with the raw message interpolated otherwise.  The full classifier is not
consulted. -/
theorem generate_music_catches (tok e prompt : String)
    (np : Option String) (sd : Option Int)
    (run : InputData → Except String ProviderOutput)
    (h : run (build_input prompt np sd) = Except.error e) :
    generate_music (some tok) run prompt np sd =
      if pyContains e "Prompt was rejected" && pyContains e "artist names" then
        GenerationResult.failure "artist_names_rejected"
          "Prompt was rejected. Do not include artist names in the prompt."
      else
        GenerationResult.failure "generation_failed" ("Music generation failed: " ++ e) := by
  simp only [generate_music, h, handle_error]

/-- Witness for C1: a concrete provider failure routed to the structured
"generation_failed" result. -/
theorem generate_music_catches_witness :
    generate_music (some "tok") (fun _ => Except.error "boom") "p" none none =
      if pyContains "boom" "Prompt was rejected" && pyContains "boom" "artist names" then
        GenerationResult.failure "artist_names_rejected"
          "Prompt was rejected. Do not include artist names in the prompt."
      else
        GenerationResult.failure "generation_failed" ("Music generation failed: " ++ "boom") :=
  generate_music_catches "tok" "boom" "p" none none (fun _ => Except.error "boom") rfl

/-- C2 (counterexample): with the credential absent, the failure carries
the error tag "generation_failed" — not "service_error".  The `KeyError`
raised inside the `try` of `generate_music` is caught by its own
`except`, so the top-level "service_error" path is never reached. -/
theorem missing_token_not_service_error :
    generate_music none (fun _ => Except.ok (ProviderOutput.str "u")) "p" none none
      = GenerationResult.failure "generation_failed"
          ("Music generation failed: " ++ keyErrorMsg)
    ∧ ("generation_failed" : String) ≠ "service_error" := by
  refine ⟨by decide, by decide⟩

/-- C2 (amended): whatever the provider would do, a missing
`REPLICATE_API_TOKEN` makes `generate_music` return the generic
"generation_failed" failure interpolating the `KeyError` message. -/
theorem missing_token_result (run : InputData → Except String ProviderOutput)
    (prompt : String) (np : Option String) (sd : Option Int) :
    generate_music none run prompt np sd
      = GenerationResult.failure "generation_failed"
          ("Music generation failed: " ++ keyErrorMsg) := rfl

/-- Witness for C2 at concrete arguments. -/
theorem missing_token_result_witness :
    generate_music none (fun _ => Except.ok (ProviderOutput.fileOutput "u")) "hello" none none
      = GenerationResult.failure "generation_failed"
          ("Music generation failed: " ++ keyErrorMsg) :=
  missing_token_result (fun _ => Except.ok (ProviderOutput.fileOutput "u")) "hello" none none

/-- C8: a provider response that is the plain string `u` and one that is
an object whose url attribute is `u` normalize to the identical Success
payload carrying `u` and the original prompt. -/
theorem normalize_string_eq_fileOutput (tok u prompt : String)
    (np : Option String) (sd : Option Int) :
    generate_music (some tok) (fun _ => Except.ok (ProviderOutput.str u)) prompt np sd
      = GenerationResult.success u prompt
    ∧ generate_music (some tok) (fun _ => Except.ok (ProviderOutput.fileOutput u)) prompt np sd
      = GenerationResult.success u prompt := ⟨rfl, rfl⟩

/-- Witness for C8 at a concrete URL and prompt. -/
theorem normalize_string_eq_fileOutput_witness :
    generate_music (some "tok") (fun _ => Except.ok (ProviderOutput.str "https://cdn/audio.wav"))
        "lofi beats" none none
      = GenerationResult.success "https://cdn/audio.wav" "lofi beats" :=
  (normalize_string_eq_fileOutput "tok" "https://cdn/audio.wav" "lofi beats" none none).1

/-- C9: `input_data` always carries the prompt, carries no
negative_prompt key when that argument is absent, carries no seed key
when that argument is absent, and any optional key it does carry holds
the value that was supplied. -/
theorem build_input_optional_fields (p : String) (np : Option String) (sd : Option Int) :
    (build_input p np sd).prompt = p
    ∧ (np = none → (build_input p np sd).negative_prompt = none)
    ∧ (sd = none → (build_input p np sd).seed = none)
    ∧ (∀ v, (build_input p np sd).negative_prompt = some v → np = some v)
    ∧ (∀ n, (build_input p np sd).seed = some n → sd = some n) := by
  refine ⟨rfl, fun h => ?_, fun h => ?_, fun v hv => ?_, fun n hn => ?_⟩
  · subst h; rfl
  · subst h; rfl
  · revert hv
    simp only [build_input]
    split
    · exact fun hv => hv
    · exact fun hv => Option.noConfusion hv
  · revert hn
    simp only [build_input]
    split
    · exact fun hn => hn
    · exact fun hn => Option.noConfusion hn

/-- Witness for C9: with both optional arguments absent the input object
is just the prompt. -/
theorem build_input_optional_fields_witness :
    (build_input "hello" none none).prompt = "hello"
    ∧ (build_input "hello" none none).negative_prompt = none
    ∧ (build_input "hello" none none).seed = none :=
  ⟨(build_input_optional_fields "hello" none none).1,
   (build_input_optional_fields "hello" none none).2.1 rfl,
   (build_input_optional_fields "hello" none none).2.2.1 rfl⟩

/-- C10: presence of the optional fields is decided by truthiness — a
seed of 0 or an empty negative prompt builds exactly the same provider
input object as omitting the argument, so `generate_music` behaves
identically, and a seed of 0 is never forwarded. -/
theorem falsy_optionals_omitted (p : String) (np : Option String) (sd : Option Int)
    (env : Option String) (run : InputData → Except String ProviderOutput) :
    build_input p (some "") sd = build_input p none sd
    ∧ build_input p np (some 0) = build_input p np none
    ∧ (build_input p np (some 0)).seed = none
    ∧ generate_music env run p np (some 0) = generate_music env run p np none
    ∧ generate_music env run p (some "") sd = generate_music env run p none sd := by
  refine ⟨rfl, rfl, rfl, by cases env <;> rfl, by cases env <;> rfl⟩

/-- Witness for C10: the seed-0 equation at concrete arguments. -/
theorem falsy_optionals_omitted_witness :
    build_input "p" (some "") none = build_input "p" none none :=
  (falsy_optionals_omitted "p" none none (some "t")
    (fun _ => Except.ok (ProviderOutput.str "u"))).1

end MusicBridge
